import Mathlib

/-!
Verification of `custom_components/toon_smartmeter/sensor.py` (Toon Smart Meter
integration).  The Python module is shallowly embedded below: parsed JSON
payloads become the inductive `Json`, Python `float` values (which may be NaN)
become `PyFloat`, exceptions become `Except PyErr`, and the stateful objects
(`ToonSmartMeterData`, `ToonSmartMeterSensor`) become explicit state passing.
Numeric values are modelled with `ℚ`; Python's binary floating point is
idealized as exact rational arithmetic (every concrete value appearing in the
theorems below is exactly representable).  String scanning is carried out over
`List Char` so that all definitions evaluate inside the kernel.
-/

/-- A parsed JSON document, as produced by `response.json(...)` in
`ToonSmartMeterData.async_update`.  Objects are association lists of
string-keyed fields. -/
inductive Json where
  | null : Json
  | b (v : Bool) : Json
  | num (v : ℚ) : Json
  | str (s : String) : Json
  | arr (xs : List Json) : Json
  | obj (fields : List (String × Json)) : Json

/-- Python truthiness of a JSON value (`if self._data:` / `if not energy:`):
`None`, `False`, `0`, `""`, `[]` and `{}` are falsy, everything else truthy. -/
def truthy : Json → Bool
  | .null => false
  | .b v => v
  | .num q => decide (q ≠ 0)
  | .str s => decide (s ≠ "")
  | .arr xs => !xs.isEmpty
  | .obj fs => !fs.isEmpty

/-- Python exceptions that the embedded code can raise. -/
inductive PyErr where
  | keyError : PyErr
  | typeError : PyErr
  | valueError : PyErr
deriving DecidableEq

/-- Python subscripting `j[k]` on a parsed JSON value: a `KeyError` when the
mapping lacks the key, a `TypeError` when `j` is not a mapping. -/
def Json.index (j : Json) (k : String) : Except PyErr Json :=
  match j with
  | .obj fs =>
    match fs.lookup k with
    | some v => .ok v
    | none => .error .keyError
  | _ => .error .typeError

/-- A Python float: either NaN or a finite value (idealized as a rational).
Infinities do not occur in any payload considered here and are outside the
modelled domain. -/
inductive PyFloat where
  | nan : PyFloat
  | val (q : ℚ) : PyFloat

/-- Division of a Python float by a nonzero numeric literal (the only
divisions the source performs are `/ 1000` and `/ 60`). -/
def PyFloat.divC (f : PyFloat) (c : ℚ) : PyFloat :=
  match f with
  | .nan => .nan
  | .val q => .val (q / c)

/-- Round-half-to-even on rationals, the tie-breaking rule of Python's
built-in `round`. -/
def roundHalfEven (q : ℚ) : ℤ :=
  let n := ⌊q⌋
  let r := q - n
  if r < 1/2 then n
  else if 1/2 < r then n + 1
  else if n % 2 = 0 then n else n + 1

/-- Python `round(x, 1)` on a float: round to one decimal place (NaN rounds
to NaN). -/
def PyFloat.roundTo1 (f : PyFloat) : PyFloat :=
  match f with
  | .nan => .nan
  | .val q => .val ((roundHalfEven (q * 10) : ℚ) / 10)

/-- ASCII whitespace, as stripped by Python's `float` from its string
argument. -/
def isPySpace (c : Char) : Bool :=
  c = ' ' || c = '\t' || c = '\n' || c = '\r'

/-- Strip leading and trailing whitespace from a character list. -/
def trimChars (cs : List Char) : List Char :=
  ((cs.dropWhile isPySpace).reverse.dropWhile isPySpace).reverse

/-- Numeric value of a list of decimal digits. -/
def digitsToNat (cs : List Char) : ℕ :=
  cs.foldl (fun n c => n * 10 + (c.toNat - 48)) 0

/-- Rational named by a sign, an integer-digit part and a fraction-digit
part. -/
def ratOfParts (neg : Bool) (ip fp : List Char) : ℚ :=
  let mag : ℚ := (digitsToNat ip : ℚ) + (digitsToNat fp : ℚ) / (10 ^ fp.length)
  if neg then -mag else mag

/-- Split a character list at the occurrences of `'.'`. -/
def splitDot : List Char → List (List Char)
  | [] => [[]]
  | c :: rest =>
    if c = '.' then [] :: splitDot rest
    else
      match splitDot rest with
      | h :: t => (c :: h) :: t
      | [] => [[c]]

/-- Parse a decimal string the way Python's `float` does (optional sign,
digits, optional fractional part; surrounding whitespace stripped).
Exponent and infinity forms do not occur in the payloads considered here and
are outside the modelled domain (they parse to `none`, i.e. are treated as
unparseable). -/
def pyStrToRat? (s : String) : Option ℚ :=
  let t := trimChars s.data
  let (neg, body) :=
    match t with
    | '-' :: r => (true, r)
    | '+' :: r => (false, r)
    | r => (false, r)
  match splitDot body with
  | [ip] =>
    if !ip.isEmpty && ip.all Char.isDigit then some (ratOfParts neg ip []) else none
  | [ip, fp] =>
    if (!ip.isEmpty || !fp.isEmpty) && ip.all Char.isDigit && fp.all Char.isDigit then
      some (ratOfParts neg ip fp)
    else none
  | _ => none

/-- Python's `float(x)` builtin applied to a JSON value: numbers and booleans
convert, strings are parsed (accepting `"nan"` in any letter case, which
yields NaN), everything else is a `TypeError`; an unparseable string is a
`ValueError`. -/
def pyFloat (j : Json) : Except PyErr PyFloat :=
  match j with
  | .num q => .ok (.val q)
  | .b true => .ok (.val 1)
  | .b false => .ok (.val 0)
  | .str s =>
    let t := (trimChars s.data).map Char.toLower
    if t = "nan".data || t = "+nan".data || t = "-nan".data then .ok .nan
    else
      match pyStrToRat? s with
      | some q => .ok (.val q)
      | none => .error .valueError
  | _ => .error .typeError

/-- A value held in `ToonSmartMeterSensor._state`: the identity branches of
`async_update` store the raw JSON value, the converting branches store a
Python float. -/
inductive SensorValue where
  | raw (j : Json) : SensorValue
  | flt (f : PyFloat) : SensorValue

/-- Line 315 of sensor.py: `p1_device = "dev_15"`. -/
def p1_device : String := "dev_15"

/-- Line 316 of sensor.py: `water_device = "dev_27"`. -/
def water_device : String := "dev_27"

/-- Line 317 of sensor.py: `solar_device = "dev_20.export"`. -/
def solar_device : String := "dev_20.export"

/-- The nested subscript `energy[dev][field]` used by every branch of
`ToonSmartMeterSensor.async_update`. -/
def getField (energy : Json) (dev field : String) : Except PyErr Json :=
  match energy.index dev with
  | .error e => .error e
  | .ok d => d.index field

/-- A branch of the form `self._state = float(energy[dev][field]) / 1000`. -/
def stateDiv1000 (energy : Json) (dev field : String) : Except PyErr SensorValue :=
  match getField energy dev field with
  | .error e => .error e
  | .ok raw =>
    match pyFloat raw with
    | .error e => .error e
    | .ok f => .ok (.flt (f.divC 1000))

/-- A branch of the form `self._state = energy[dev][field]` (no conversion). -/
def stateIdentity (energy : Json) (dev field : String) : Except PyErr SensorValue :=
  match getField energy dev field with
  | .error e => .error e
  | .ok raw => .ok (.raw raw)

/-- The branch `self._state = round((float(energy[dev][field]) / 60), 1)`. -/
def stateWaterflow (energy : Json) (dev field : String) : Except PyErr SensorValue :=
  match getField energy dev field with
  | .error e => .error e
  | .ok raw =>
    match pyFloat raw with
    | .error e => .error e
    | .ok f => .ok (.flt ((f.divC 60).roundTo1))

/-- The `if self._type == ... / elif ...` chain of
`ToonSmartMeterSensor.async_update` (lines 320-385), applied to a payload
`energy`; `st` is the prior `self._state`, returned unchanged when the chain
falls through without matching. -/
def sensorBranches (t : String) (energy : Json) (st : Option SensorValue) :
    Except PyErr (Option SensorValue) :=
  if t = "gasused" then
    (stateDiv1000 energy (p1_device ++ ".1") "CurrentGasFlow").map some
  else if t = "gasusedcnt" then
    (stateDiv1000 energy (p1_device ++ ".1") "CurrentGasQuantity").map some
  else if t = "elecusageflowpulse" then
    (stateIdentity energy (p1_device ++ ".2") "CurrentElectricityFlow").map some
  else if t = "elecusagecntpulse" then
    (stateDiv1000 energy (p1_device ++ ".2") "CurrentElectricityQuantity").map some
  else if t = "elecusageflowlow" then
    (stateIdentity energy (p1_device ++ ".6") "CurrentElectricityFlow").map some
  else if t = "elecusagecntlow" then
    (stateDiv1000 energy (p1_device ++ ".6") "CurrentElectricityQuantity").map some
  else if t = "elecusageflowhigh" then
    (stateIdentity energy (p1_device ++ ".4") "CurrentElectricityFlow").map some
  else if t = "elecusagecnthigh" then
    (stateDiv1000 energy (p1_device ++ ".4") "CurrentElectricityQuantity").map some
  else if t = "elecprodflowlow" then
    (stateIdentity energy (p1_device ++ ".7") "CurrentElectricityFlow").map some
  else if t = "elecprodcntlow" then
    (stateDiv1000 energy (p1_device ++ ".7") "CurrentElectricityQuantity").map some
  else if t = "elecprodflowhigh" then
    (stateIdentity energy (p1_device ++ ".5") "CurrentElectricityFlow").map some
  else if t = "elecprodcnthigh" then
    (stateDiv1000 energy (p1_device ++ ".5") "CurrentElectricityQuantity").map some
  else if t = "elecsolar" then
    (stateIdentity energy solar_device "CurrentElectricityFlow").map some
  else if t = "elecsolarcnt" then
    (stateDiv1000 energy solar_device "CurrentElectricityQuantity").map some
  else if t = "heat" then
    (stateDiv1000 energy (p1_device ++ ".8") "CurrentHeatQuantity").map some
  else if t = "waterflow" then
    (stateWaterflow energy (water_device ++ ".9") "CurrentWaterFlow").map some
  else if t = "waterusedcnt" then
    (stateDiv1000 energy (water_device ++ ".9") "CurrentWaterQuantity").map some
  else .ok st

/-- The `latest_data` property of `ToonSmartMeterData`: return `self._data`
when it is truthy, else `None`. -/
def latest_data (d : Option Json) : Option Json :=
  match d with
  | some j => if truthy j then some j else none
  | none => none

/-- The body of `ToonSmartMeterSensor.async_update` after the gateway
refresh: read `latest_data`, return unchanged on a falsy payload
(`if not energy: return`), otherwise run the branch chain.  `gdata` is the
gateway's `_data` attribute. -/
def sensorUpdate (t : String) (gdata : Option Json) (st : Option SensorValue) :
    Except PyErr (Option SensorValue) :=
  match latest_data gdata with
  | none => .ok st
  | some energy => if truthy energy then sensorBranches t energy st else .ok st

/-- One sensor refresh as observed by the caller: the resulting `_state`
together with the exception propagated out of `async_update`, if any.  A
branch raises before the assignment to `self._state` executes, so on an
exception the prior state is retained. -/
def sensorRefresh (t : String) (gdata : Option Json) (st : Option SensorValue) :
    Option SensorValue × Option PyErr :=
  match sensorUpdate t gdata st with
  | .ok s => (s, none)
  | .error e => (st, some e)

/-- The `_validateOutput` method (lines 291-299).  When `value.lower() ==
"nan"` the statement `value = 0    @property` parses as the matrix
multiplication `value = 0 @ property`, which raises `TypeError`; the bare
`except` then returns the still-unmodified `value`.  On non-strings,
`value.lower()` raises `AttributeError`, also returning `value` unchanged.
The method therefore returns its argument on every input (and is never
called from `async_update`). -/
def validateOutput (v : SensorValue) : SensorValue :=
  match v with
  | .raw (.str s) => if (s.data.map Char.toLower) = "nan".data then v else v
  | _ => v


/-- The state of the shared `ToonSmartMeterData` object: the cached payload
`_data` and, for the `Throttle` decorator, the (integer-second) instant of
the last refresh that actually executed. -/
structure GatewayState where
  data : Option Json
  lastAttempt : Option ℤ

/-- What the network and the response body do during one executed fetch.
`transportError` stands for the caught `aiohttp.ClientError` and
`asyncio.TimeoutError`; `otherError` for the catch-all `except Exception`
arm of the request block; `parseError` for a body that
`response.json(content_type="text/javascript")` cannot parse. -/
inductive FetchResult where
  | transportError : FetchResult
  | otherError : FetchResult
  | parseError : FetchResult
  | success (body : Json) : FetchResult

/-- The body of `ToonSmartMeterData.async_update` (lines 237-260), with each
`except` arm of the source becoming a total match arm (nothing escapes to
the caller): a transport error leaves `_data` untouched, the catch-all and a
parse failure set `_data = None`, and success replaces `_data` with the
parsed body. -/
def updateBody (s : GatewayState) (r : FetchResult) : GatewayState :=
  match r with
  | .transportError => s
  | .otherError => { s with data := none }
  | .parseError => { s with data := none }
  | .success j => { s with data := some j }

/-- MIN_TIME_BETWEEN_UPDATES (line 40): 10 seconds. -/
def MIN_TIME_BETWEEN_UPDATES : ℤ := 10

/-- Modelled from the spec: the host platform's `@Throttle(...)` decorator
(from `homeassistant.util`, not part of this repository) wraps
`ToonSmartMeterData.async_update` so that the body runs only when at least
`MIN_TIME_BETWEEN_UPDATES` has elapsed since the last attempted (executed)
refresh; a call inside the window is a no-op returning immediately without
network I/O.  The returned flag records whether the body ran (one HTTP GET
is attempted exactly when it did). -/
def throttledUpdate (s : GatewayState) (now : ℤ) (r : FetchResult) :
    GatewayState × Bool :=
  match s.lastAttempt with
  | some t0 =>
    if now - t0 < MIN_TIME_BETWEEN_UPDATES then (s, false)
    else ({ updateBody s r with lastAttempt := some now }, true)
  | none => ({ updateBody s r with lastAttempt := some now }, true)

/-- The unit-conversion functions named by the table in spec §4.2. -/
inductive Transform where
  | div1000 : Transform
  | identity : Transform
  | div60round1 : Transform
deriving DecidableEq

/-- Spec §4.2's fixed path table, written from the spec's words: measurement
identifier, device key, field name, transform.  This is the specification
side of the refinement claims; `sensorBranches` above is the code side. -/
def specTable : List (String × String × String × Transform) :=
  [("gasused", "dev_15.1", "CurrentGasFlow", .div1000),
   ("gasusedcnt", "dev_15.1", "CurrentGasQuantity", .div1000),
   ("elecusageflowpulse", "dev_15.2", "CurrentElectricityFlow", .identity),
   ("elecusagecntpulse", "dev_15.2", "CurrentElectricityQuantity", .div1000),
   ("elecusageflowlow", "dev_15.6", "CurrentElectricityFlow", .identity),
   ("elecusagecntlow", "dev_15.6", "CurrentElectricityQuantity", .div1000),
   ("elecusageflowhigh", "dev_15.4", "CurrentElectricityFlow", .identity),
   ("elecusagecnthigh", "dev_15.4", "CurrentElectricityQuantity", .div1000),
   ("elecprodflowlow", "dev_15.7", "CurrentElectricityFlow", .identity),
   ("elecprodcntlow", "dev_15.7", "CurrentElectricityQuantity", .div1000),
   ("elecprodflowhigh", "dev_15.5", "CurrentElectricityFlow", .identity),
   ("elecprodcnthigh", "dev_15.5", "CurrentElectricityQuantity", .div1000),
   ("elecsolar", "dev_20.export", "CurrentElectricityFlow", .identity),
   ("elecsolarcnt", "dev_20.export", "CurrentElectricityQuantity", .div1000),
   ("heat", "dev_15.8", "CurrentHeatQuantity", .div1000),
   ("waterflow", "dev_27.9", "CurrentWaterFlow", .div60round1),
   ("waterusedcnt", "dev_27.9", "CurrentWaterQuantity", .div1000)]

/-- Application of a spec §4.2 transform to a raw extracted value, written
from the spec's words (divide by 1000; identity; divide by 60 then round to
one decimal). -/
def applyTransform (tr : Transform) (raw : Json) : Except PyErr SensorValue :=
  match tr with
  | .identity => .ok (.raw raw)
  | .div1000 =>
    match pyFloat raw with
    | .error e => .error e
    | .ok f => .ok (.flt (f.divC 1000))
  | .div60round1 =>
    match pyFloat raw with
    | .error e => .error e
    | .ok f => .ok (.flt ((f.divC 60).roundTo1))

/-- SENSOR_LIST (lines 46-64): the fixed set of 17 measurement
identifiers. -/
def SENSOR_LIST : List String :=
  ["gasused", "gasusedcnt", "elecusageflowpulse", "elecusagecntpulse",
   "elecusageflowlow", "elecusageflowhigh", "elecprodflowlow",
   "elecprodflowhigh", "elecusagecntlow", "elecusagecnthigh",
   "elecprodcntlow", "elecprodcnthigh", "elecsolar", "elecsolarcnt",
   "heat", "waterflow", "waterusedcnt"]

/-- Configuration as supplied by the host before schema validation: host
string, optional port, optional resource list (`vol.Optional` /
`vol.Required` with defaults). -/
structure RawConfig where
  host : String
  port : Option ℤ
  resources : Option (List String)

/-- Configuration after schema validation. -/
structure ConfigOut where
  host : String
  port : ℤ
  resources : List String

/-- PLATFORM_SCHEMA (lines 194-202), with the voluptuous combinators
modelled by their documented semantics: an omitted port defaults to 80
(`vol.Optional(CONF_PORT, default=80)`), an omitted resource list defaults
to `list(SENSOR_LIST)`, and every supplied resource must satisfy
`vol.In(SENSOR_LIST)` or validation fails before any polling starts. -/
def validateConfig (c : RawConfig) : Except Unit ConfigOut :=
  if (c.resources.getD SENSOR_LIST).all (fun r => SENSOR_LIST.contains r) then
    .ok ⟨c.host, c.port.getD 80, c.resources.getD SENSOR_LIST⟩
  else .error ()

/-- The inner `_reducer` function of `safe_get` (lines 391-394): `d.get(key,
default)` when `d` is a mapping, `default` otherwise; it closes over the
`default` argument of `safe_get`. -/
def reducer (default : Json) (d : Json) (key : String) : Json :=
  match d with
  | .obj fs =>
    match fs.lookup key with
    | some v => v
    | none => default
  | _ => default

/-- The module-level `safe_get` helper (lines 390-396): a left fold of
`_reducer` over the key list (`reduce(_reducer, keys, _dict)`).  Note that
after a failed step the fold continues from `default` itself. -/
def safe_get (d : Json) (keys : List String) (default : Json) : Json :=
  keys.foldl (reducer default) d

/-- Specification-side nested lookup: follow the keys while every
intermediate value is a mapping containing the next key; `none` as soon as a
step fails.  Written from claim C10's words, to be compared with
`safe_get`. -/
def getPath : Json → List String → Option Json
  | j, [] => some j
  | j, k :: ks =>
    match j with
    | .obj fs =>
      match fs.lookup k with
      | some v => getPath v ks
      | none => none
    | _ => none

/-- The end-to-end payload of spec §8:
`{"dev_15.1": {"CurrentGasFlow": "2000", "CurrentGasQuantity": "500000"}}`. -/
def gasPayload : Json :=
  .obj [("dev_15.1", .obj [("CurrentGasFlow", .str "2000"),
                           ("CurrentGasQuantity", .str "500000")])]

/-- A payload carrying raw `CurrentWaterFlow = 30`. -/
def waterPayload : Json :=
  .obj [("dev_27.9", .obj [("CurrentWaterFlow", .num 30)])]

/-- A payload whose raw gas-flow field is the string `"NaN"`. -/
def nanPayload : Json :=
  .obj [("dev_15.1", .obj [("CurrentGasFlow", .str "NaN")])]

/-- A solar payload with raw flow `"100"`. -/
def solarPayloadA : Json :=
  .obj [("dev_20.export", .obj [("CurrentElectricityFlow", .str "100")])]

/-- A solar payload with raw flow `"200"`. -/
def solarPayloadB : Json :=
  .obj [("dev_20.export", .obj [("CurrentElectricityFlow", .str "200")])]

/-- Helper lemmas relating the embedded code to the specification table
begin here; the claim theorems follow them. -/
lemma stateDiv1000_eq (e : Json) (d f : String) :
    stateDiv1000 e d f = (getField e d f).bind (applyTransform .div1000) := by
  cases h : getField e d f <;> simp [stateDiv1000, h, Except.bind, applyTransform]

lemma stateIdentity_eq (e : Json) (d f : String) :
    stateIdentity e d f = (getField e d f).bind (applyTransform .identity) := by
  cases h : getField e d f <;> simp [stateIdentity, h, Except.bind, applyTransform]

lemma stateWaterflow_eq (e : Json) (d f : String) :
    stateWaterflow e d f = (getField e d f).bind (applyTransform .div60round1) := by
  cases h : getField e d f <;> simp [stateWaterflow, h, Except.bind, applyTransform]

/-- Refinement of the branch chain by the spec table: on a listed identifier
the code's branch equals extraction along the table's path followed by the
table's transform. -/
lemma branches_eq_spec (id dev fld : String) (tr : Transform)
    (hmem : (id, dev, fld, tr) ∈ specTable) (e : Json) (st : Option SensorValue) :
    sensorBranches id e st = ((getField e dev fld).bind (applyTransform tr)).map some := by
  fin_cases hmem <;>
    first
      | exact congrArg (Except.map some) (stateDiv1000_eq e _ _)
      | exact congrArg (Except.map some) (stateIdentity_eq e _ _)
      | exact congrArg (Except.map some) (stateWaterflow_eq e _ _)

/-- An identifier outside SENSOR_LIST falls through the whole `elif` chain,
leaving the state unchanged. -/
lemma branches_not_listed (t : String) (hnot : t ∉ SENSOR_LIST) (e : Json)
    (st : Option SensorValue) :
    sensorBranches t e st = .ok st := by
  simp only [SENSOR_LIST, List.mem_cons, List.not_mem_nil, or_false, not_or] at hnot
  obtain ⟨h1, h2, h3, h4, h5, h6, h7, h8, h9, h10, h11, h12, h13, h14, h15, h16, h17⟩ := hnot
  unfold sensorBranches
  rw [if_neg h1, if_neg h2, if_neg h3, if_neg h4, if_neg h5, if_neg h9, if_neg h6,
    if_neg h10, if_neg h7, if_neg h11, if_neg h8, if_neg h12, if_neg h13, if_neg h14,
    if_neg h15, if_neg h16, if_neg h17]

/-- The branch chain never reads the prior state except to pass it through
unchanged. -/
lemma sensorBranches_state_indep (t : String) (e : Json) (st st' : Option SensorValue) :
    sensorBranches t e st = sensorBranches t e st' ∨
      (sensorBranches t e st = .ok st ∧ sensorBranches t e st' = .ok st') := by
  by_cases hmem : t ∈ SENSOR_LIST
  · exact Or.inl (by fin_cases hmem <;> rfl)
  · exact Or.inr ⟨branches_not_listed t hmem e st, branches_not_listed t hmem e st'⟩

lemma refresh_of_branches_ok (t : String) (e : Json) (st s : Option SensorValue)
    (htr : truthy e = true) (hb : sensorBranches t e st = .ok s) :
    sensorRefresh t (some e) st = (s, none) := by
  simp [sensorRefresh, sensorUpdate, latest_data, htr, hb]

lemma refresh_of_branches_err (t : String) (e : Json) (st : Option SensorValue)
    (err : PyErr) (htr : truthy e = true) (hb : sensorBranches t e st = .error err) :
    sensorRefresh t (some e) st = (st, some err) := by
  simp [sensorRefresh, sensorUpdate, latest_data, htr, hb]

lemma refresh_falsy (t : String) (e : Json) (st : Option SensorValue)
    (h : truthy e = false) :
    sensorRefresh t (some e) st = (st, none) := by
  simp [sensorRefresh, sensorUpdate, latest_data, h]

/-- A gateway state whose throttled update actually ran records the call
instant as the new last attempt. -/
lemma throttle_ran_lastAttempt (s : GatewayState) (t1 : ℤ) (r1 : FetchResult)
    (hg : (throttledUpdate s t1 r1).2 = true) :
    (throttledUpdate s t1 r1).1.lastAttempt = some t1 := by
  rcases s with ⟨d, la⟩
  cases la with
  | none => rfl
  | some t0 =>
    by_cases h0 : t1 - t0 < MIN_TIME_BETWEEN_UPDATES
    · simp [throttledUpdate, h0] at hg
    · simp [throttledUpdate, h0]

/-- A refresh issued inside the throttle window of the recorded last attempt
is a no-op. -/
lemma throttled_second (s1 : GatewayState) (t1 t2 : ℤ) (r2 : FetchResult)
    (hla : s1.lastAttempt = some t1) (hlt : t2 - t1 < MIN_TIME_BETWEEN_UPDATES) :
    throttledUpdate s1 t2 r2 = (s1, false) := by
  unfold throttledUpdate
  rw [hla]
  simp [hlt]

/-- Folding the reducer from a non-mapping accumulator never leaves it. -/
lemma foldl_reducer_default (default : Json)
    (hd : ∀ fs : List (String × Json), default ≠ .obj fs) (ks : List String) :
    List.foldl (reducer default) default ks = default := by
  induction ks with
  | nil => rfl
  | cons k ks ih =>
    have hstep : reducer default default k = default := by
      cases default with
      | obj fs => exact absurd rfl (hd fs)
      | null => rfl
      | b v => rfl
      | num q => rfl
      | str s => rfl
      | arr xs => rfl
    rw [List.foldl_cons, hstep, ih]

/-- C5: for every transport failure during a fetch, the cached payload is
left exactly as it was, every measurement extraction over it is unchanged,
and nothing is raised (the handler arms of `async_update` are total). -/
theorem C5_transport_failure_preserves (s : GatewayState) (now : ℤ) :
    updateBody s .transportError = s ∧
    (throttledUpdate s now .transportError).1.data = s.data ∧
    ∀ (t : String) (st : Option SensorValue),
      sensorRefresh t (throttledUpdate s now .transportError).1.data st =
        sensorRefresh t s.data st := by
  have h2 : (throttledUpdate s now .transportError).1.data = s.data := by
    rcases s with ⟨d, la⟩
    cases la with
    | none => rfl
    | some t0 =>
      by_cases h0 : now - t0 < MIN_TIME_BETWEEN_UPDATES
      · simp [throttledUpdate, h0]
      · simp [throttledUpdate, h0, updateBody]
  exact ⟨rfl, h2, fun t st => by rw [h2]⟩

/-- C6: a malformed (non-JSON) body sets the cached payload to absent, and
every subsequent measurement refresh against an absent payload leaves the
reading unchanged and raises nothing. -/
theorem C6_malformed_body_invalidates (s : GatewayState) :
    (updateBody s .parseError).data = none ∧
    ∀ (t : String) (st : Option SensorValue),
      sensorRefresh t (updateBody s .parseError).data st = (st, none) ∧
      sensorRefresh t none st = (st, none) :=
  ⟨rfl, fun _ _ => ⟨rfl, rfl⟩⟩

/-- C7: extraction plus transform is deterministic and idempotent with
respect to the payload: refreshing a second time against the same cached
payload leaves the reading produced by the first refresh unchanged. -/
theorem C7_extraction_deterministic (t : String) (gdata : Option Json)
    (st : Option SensorValue) :
    (sensorRefresh t gdata ((sensorRefresh t gdata st).1)).1 =
      (sensorRefresh t gdata st).1 := by
  match gdata with
  | none => rfl
  | some e =>
    by_cases htr : truthy e = true
    · cases hb : sensorBranches t e st with
      | error err =>
        rw [refresh_of_branches_err t e st err htr hb]
        show (sensorRefresh t (some e) st).1 = st
        rw [refresh_of_branches_err t e st err htr hb]
      | ok s =>
        rw [refresh_of_branches_ok t e st s htr hb]
        show (sensorRefresh t (some e) s).1 = s
        rcases sensorBranches_state_indep t e st s with heq | ⟨hst, hs⟩
        · rw [refresh_of_branches_ok t e s s htr (heq.symm.trans hb)]
        · rw [refresh_of_branches_ok t e s s htr hs]
    · have hf : truthy e = false := by simpa using htr
      rw [refresh_falsy t e st hf]
      show (sensorRefresh t (some e) st).1 = st
      rw [refresh_falsy t e st hf]

/-- C9: `latest_data` returns the cached payload only when it is truthy;
every falsy payload — including a successfully fetched empty object — is
reported as `None`, indistinguishable from no successful fetch. -/
theorem C9_latest_data_truthiness :
    (∀ j : Json, truthy j = false → latest_data (some j) = none) ∧
    (∀ j : Json, truthy j = true → latest_data (some j) = some j) ∧
    latest_data (some (.obj [])) = none ∧
    latest_data none = none ∧
    latest_data (some (.obj [])) = latest_data none := by
  refine ⟨fun j hf => ?_, fun j ht => ?_, rfl, rfl, rfl⟩
  · simp [latest_data, hf]
  · simp [latest_data, ht]

/-- C9 witness: concrete falsy and truthy cached payloads. -/
theorem C9_latest_data_truthiness_witness :
    latest_data (some (.str "")) = none ∧
    latest_data (some (.str "x")) = some (.str "x") :=
  ⟨C9_latest_data_truthiness.1 (.str "") rfl,
   C9_latest_data_truthiness.2.1 (.str "x") rfl⟩

/-- C3: the claim says a raw `"NaN"` value yields reading `0`, but the code
stores NaN: `_validateOutput` is never called from `async_update`, and is
itself inert because its `value = 0    @property` line raises inside the
bare `try/except`.  On the failing payload the gasused reading becomes NaN,
not `0`; on an identity branch the raw string `"NaN"` itself is stored. -/
theorem C3_nan_reading_not_zero :
    sensorRefresh "gasused" (some nanPayload) none = (some (.flt .nan), none) ∧
    SensorValue.flt .nan ≠ SensorValue.flt (.val 0) ∧
    validateOutput (.raw (.str "NaN")) = .raw (.str "NaN") ∧
    sensorRefresh "elecusageflowpulse"
        (some (.obj [("dev_15.2", .obj [("CurrentElectricityFlow", .str "NaN")])])) none =
      (some (.raw (.str "NaN")), none) := by
  refine ⟨rfl, ?_, rfl, rfl⟩
  intro h
  injection h with h1
  exact PyFloat.noConfusion h1

/-- C1 counterexample: on the truthy payload `{"x": 1}`, which lacks the
device key `dev_15.1`, refreshing `gasused` raises `KeyError` to the caller
instead of returning silently. -/
theorem C1_counterexample :
    (sensorRefresh "gasused" (some (Json.obj [("x", Json.num 1)])) none).2 =
      some PyErr.keyError ∧
    some PyErr.keyError ≠ (none : Option PyErr) :=
  ⟨rfl, by decide⟩

/-- C1 (amended): for every listed measurement identifier and every truthy
cached payload lacking a segment of its nested path, a refresh leaves the
reading unchanged but propagates the subscript error (`KeyError` for a
missing key, `TypeError` for a non-mapping) to the caller rather than
returning silently. -/
theorem C1_missing_path_raises (id dev fld : String) (tr : Transform)
    (hmem : (id, dev, fld, tr) ∈ specTable) (energy : Json)
    (st : Option SensorValue) (e : PyErr)
    (htr : truthy energy = true)
    (hget : getField energy dev fld = .error e) :
    sensorRefresh id (some energy) st = (st, some e) := by
  have hb : sensorBranches id energy st = .error e := by
    rw [branches_eq_spec id dev fld tr hmem energy st, hget]
    rfl
  exact refresh_of_branches_err id energy st e htr hb

/-- C1 witness: the amended statement at the concrete failing payload. -/
theorem C1_missing_path_raises_witness :
    sensorRefresh "gasused" (some (Json.obj [("x", Json.num 1)])) none =
      (none, some PyErr.keyError) :=
  C1_missing_path_raises "gasused" "dev_15.1" "CurrentGasFlow" .div1000 (by decide)
    (Json.obj [("x", Json.num 1)]) none .keyError rfl rfl

/-- C2: every listed measurement identifier computes its reading by
extracting along exactly the device key and field of the §4.2 table and
applying exactly the listed transform; concretely the spec's end-to-end
payload gives gasused = 2 and gasusedcnt = 500, and raw CurrentWaterFlow =
30 gives waterflow = 0.5. -/
theorem C2_transform_table :
    (∀ (id dev fld : String) (tr : Transform), (id, dev, fld, tr) ∈ specTable →
      ∀ (energy raw : Json) (st : Option SensorValue) (v : SensorValue),
        truthy energy = true →
        getField energy dev fld = .ok raw →
        applyTransform tr raw = .ok v →
        sensorRefresh id (some energy) st = (some v, none)) ∧
    sensorRefresh "gasused" (some gasPayload) none = (some (.flt (.val 2)), none) ∧
    sensorRefresh "gasusedcnt" (some gasPayload) none = (some (.flt (.val 500)), none) ∧
    sensorRefresh "waterflow" (some waterPayload) none =
      (some (.flt (.val (1 / 2))), none) := by
  refine ⟨?_, ?_, ?_, ?_⟩
  · intro id dev fld tr hmem energy raw st v htr hget htrans
    have hb : sensorBranches id energy st = .ok (some v) := by
      rw [branches_eq_spec id dev fld tr hmem energy st, hget]
      simp [Except.bind, htrans, Except.map]
    exact refresh_of_branches_ok id energy st (some v) htr hb
  · have h1 : sensorRefresh "gasused" (some gasPayload) none =
        (some (.flt (.val (ratOfParts false ['2','0','0','0'] [] / 1000))), none) := rfl
    have h2 : ratOfParts false ['2','0','0','0'] [] / 1000 = (2 : ℚ) := by
      have hd : digitsToNat ['2','0','0','0'] = 2000 := rfl
      simp [ratOfParts, hd, digitsToNat]
      norm_num
    rw [h1, h2]
  · have h1 : sensorRefresh "gasusedcnt" (some gasPayload) none =
        (some (.flt (.val (ratOfParts false ['5','0','0','0','0','0'] [] / 1000))),
          none) := rfl
    have h2 : ratOfParts false ['5','0','0','0','0','0'] [] / 1000 = (500 : ℚ) := by
      have hd : digitsToNat ['5','0','0','0','0','0'] = 500000 := rfl
      simp [ratOfParts, hd, digitsToNat]
      norm_num
    rw [h1, h2]
  · have h1 : sensorRefresh "waterflow" (some waterPayload) none =
        (some (.flt (.val ((roundHalfEven ((30 : ℚ) / 60 * 10) : ℚ) / 10))), none) := rfl
    have h30 : (30 : ℚ) / 60 * 10 = 5 := by norm_num
    have hfl : ⌊(5 : ℚ)⌋ = 5 := by
      rw [show (5 : ℚ) = ((5 : ℤ) : ℚ) by norm_num]
      exact Int.floor_intCast 5
    have h5 : roundHalfEven (5 : ℚ) = 5 := by
      simp only [roundHalfEven]
      rw [hfl]
      norm_num
    rw [h1, h30, h5]
    norm_num

/-- C2 witness: the universal part at the concrete elecsolar payload. -/
theorem C2_transform_table_witness :
    sensorRefresh "elecsolar" (some solarPayloadA) none =
      (some (.raw (.str "100")), none) :=
  C2_transform_table.1 "elecsolar" "dev_20.export" "CurrentElectricityFlow" .identity
    (by decide) solarPayloadA (.str "100") none (.raw (.str "100")) rfl rfl rfl

/-- C4 counterexample: with an actual fetch recorded at instant 0, refresh
calls at instants 9 and 18 are less than 10 seconds apart, yet the second
call does perform the network fetch (it is not a no-op), and with the
device payload changed in between, the readings after the two calls
differ. -/
theorem C4_counterexample :
    ((18 : ℤ) - 9 < MIN_TIME_BETWEEN_UPDATES) ∧
    (throttledUpdate ⟨some solarPayloadA, some 0⟩ 9 (.success solarPayloadA)).2 = false ∧
    (throttledUpdate (throttledUpdate ⟨some solarPayloadA, some 0⟩ 9
        (.success solarPayloadA)).1 18 (.success solarPayloadB)).2 = true ∧
    (sensorRefresh "elecsolar"
        (throttledUpdate (throttledUpdate ⟨some solarPayloadA, some 0⟩ 9
          (.success solarPayloadA)).1 18 (.success solarPayloadB)).1.data none).1 =
      some (.raw (.str "200")) ∧
    (sensorRefresh "elecsolar"
        (throttledUpdate ⟨some solarPayloadA, some 0⟩ 9
          (.success solarPayloadA)).1.data none).1 = some (.raw (.str "100")) ∧
    some (SensorValue.raw (.str "200")) ≠ some (SensorValue.raw (.str "100")) := by
  refine ⟨by decide, rfl, rfl, rfl, rfl, ?_⟩
  intro h
  injection h with h1
  injection h1 with h2
  injection h2 with h3
  exact absurd h3 (by decide)

/-- C4 (amended): across any two refresh invocations less than
MIN_TIME_BETWEEN_UPDATES apart, at most one HTTP GET is performed; and
whenever the first invocation actually performs the fetch — in particular
on a fresh client — the second is a no-op without network I/O, leaves the
gateway state untouched, and every reading computed after it equals the
reading computed after the first. -/
theorem C4_throttle_amended (s : GatewayState) (t1 t2 : ℤ) (r1 r2 : FetchResult)
    (_h12 : t1 ≤ t2) (hlt : t2 - t1 < MIN_TIME_BETWEEN_UPDATES) :
    ¬((throttledUpdate s t1 r1).2 = true ∧
        (throttledUpdate (throttledUpdate s t1 r1).1 t2 r2).2 = true) ∧
    ((throttledUpdate s t1 r1).2 = true →
      (throttledUpdate (throttledUpdate s t1 r1).1 t2 r2).2 = false ∧
      (throttledUpdate (throttledUpdate s t1 r1).1 t2 r2).1 =
        (throttledUpdate s t1 r1).1 ∧
      ∀ (ty : String) (st : Option SensorValue),
        sensorRefresh ty (throttledUpdate (throttledUpdate s t1 r1).1 t2 r2).1.data st =
          sensorRefresh ty (throttledUpdate s t1 r1).1.data st) := by
  have key : (throttledUpdate s t1 r1).2 = true →
      throttledUpdate (throttledUpdate s t1 r1).1 t2 r2 =
        ((throttledUpdate s t1 r1).1, false) :=
    fun hg => throttled_second _ t1 t2 r2 (throttle_ran_lastAttempt s t1 r1 hg) hlt
  constructor
  · rintro ⟨hg1, hg2⟩
    rw [key hg1] at hg2
    exact Bool.false_ne_true hg2
  · intro hg1
    exact ⟨by rw [key hg1], by rw [key hg1], fun ty st => by rw [key hg1]⟩

/-- C4 witness: a fresh client and calls at instants 0 and 5. -/
theorem C4_throttle_amended_witness :
    ¬((throttledUpdate ⟨none, none⟩ 0 .transportError).2 = true ∧
        (throttledUpdate (throttledUpdate ⟨none, none⟩ 0 .transportError).1 5
          .transportError).2 = true) ∧
    ((throttledUpdate ⟨none, none⟩ 0 .transportError).2 = true →
      (throttledUpdate (throttledUpdate ⟨none, none⟩ 0 .transportError).1 5
        .transportError).2 = false ∧
      (throttledUpdate (throttledUpdate ⟨none, none⟩ 0 .transportError).1 5
        .transportError).1 = (throttledUpdate ⟨none, none⟩ 0 .transportError).1 ∧
      ∀ (ty : String) (st : Option SensorValue),
        sensorRefresh ty (throttledUpdate (throttledUpdate ⟨none, none⟩ 0
          .transportError).1 5 .transportError).1.data st =
          sensorRefresh ty (throttledUpdate ⟨none, none⟩ 0 .transportError).1.data st) :=
  C4_throttle_amended ⟨none, none⟩ 0 5 .transportError .transportError (by decide)
    (by decide)

/-- C8: the platform schema defaults the port to 80 when it is omitted and
rejects, before any polling starts, every configured measurement identifier
outside the fixed enumerated set of 17. -/
theorem C8_config_validation :
    SENSOR_LIST.length = 17 ∧
    (∀ (host : String) (res : Option (List String)) (cfg : ConfigOut),
      validateConfig ⟨host, none, res⟩ = .ok cfg → cfg.port = 80) ∧
    (∀ (host : String) (p : Option ℤ) (res : List String) (r : String),
      r ∈ res → SENSOR_LIST.contains r = false →
      validateConfig ⟨host, p, some res⟩ = .error ()) := by
  refine ⟨rfl, ?_, ?_⟩
  · intro host res cfg hok
    unfold validateConfig at hok
    split at hok
    · cases hok
      rfl
    · exact Except.noConfusion hok
  · intro host p res r hr hcon
    cases hall : res.all (fun x => SENSOR_LIST.contains x) with
    | true =>
      exfalso
      have hx := List.all_eq_true.mp hall r hr
      rw [hcon] at hx
      simp at hx
    | false =>
      simp only [validateConfig]
      rw [Option.getD_some, hall]
      rfl

/-- C8 witness: an omitted port yields 80, and an unknown identifier is
rejected. -/
theorem C8_config_validation_witness :
    (ConfigOut.port ⟨"192.168.1.10", 80, ["gasused"]⟩ = 80) ∧
    validateConfig ⟨"192.168.1.10", some 8080, some ["bogus"]⟩ = .error () :=
  ⟨C8_config_validation.2.1 "192.168.1.10" (some ["gasused"])
      ⟨"192.168.1.10", 80, ["gasused"]⟩ rfl,
   C8_config_validation.2.2 "192.168.1.10" (some 8080) ["bogus"] "bogus" (by decide)
      (by decide)⟩

/-- C10 counterexample: with a default that is itself a mapping containing a
later key, `safe_get` keeps folding into the default instead of returning it
at the first failed step, so the result is `42` rather than the default. -/
theorem C10_counterexample :
    safe_get (.obj [("a", .num 1)]) ["b", "c"] (.obj [("c", .num 42)]) = .num 42 ∧
    Json.num 42 ≠ .obj [("c", .num 42)] :=
  ⟨rfl, fun h => Json.noConfusion h⟩

/-- C10 (amended): `safe_get` is total; it returns the nested value whenever
the full path of keys exists through mappings, and — provided the default is
not itself a mapping — returns the default as soon as an intermediate value
is not a mapping or lacks the key. -/
theorem C10_safe_get_amended (d : Json) (keys : List String) (default : Json) :
    (∀ v : Json, getPath d keys = some v → safe_get d keys default = v) ∧
    ((∀ fs : List (String × Json), default ≠ .obj fs) → getPath d keys = none →
      safe_get d keys default = default) := by
  constructor
  · intro v h
    induction keys generalizing d with
    | nil =>
      simp [getPath] at h
      subst h
      rfl
    | cons k ks ih =>
      cases d with
      | obj fs =>
        cases hl : fs.lookup k with
        | some w =>
          have h' : getPath w ks = some v := by simpa [getPath, hl] using h
          simpa [safe_get, reducer, hl] using ih w h'
        | none => simp [getPath, hl] at h
      | null => simp [getPath] at h
      | b q => simp [getPath] at h
      | num q => simp [getPath] at h
      | str s => simp [getPath] at h
      | arr xs => simp [getPath] at h
  · intro hd h
    induction keys generalizing d with
    | nil => simp [getPath] at h
    | cons k ks ih =>
      cases d with
      | obj fs =>
        cases hl : fs.lookup k with
        | some w =>
          have h' : getPath w ks = none := by simpa [getPath, hl] using h
          simpa [safe_get, reducer, hl] using ih w h'
        | none =>
          show List.foldl (reducer default) (reducer default (.obj fs) k) ks = default
          rw [show reducer default (.obj fs) k = default by simp [reducer, hl]]
          exact foldl_reducer_default default hd ks
      | null => exact foldl_reducer_default default hd ks
      | b q => exact foldl_reducer_default default hd ks
      | num q => exact foldl_reducer_default default hd ks
      | str s => exact foldl_reducer_default default hd ks
      | arr xs => exact foldl_reducer_default default hd ks

/-- C10 witness: the amended statement at concrete inputs with the `None`
default the source uses. -/
theorem C10_safe_get_amended_witness :
    safe_get (.obj [("a", .obj [("b", .num 7)])]) ["a", "b"] .null = .num 7 ∧
    safe_get (.obj []) ["a"] .null = .null :=
  ⟨(C10_safe_get_amended (.obj [("a", .obj [("b", .num 7)])]) ["a", "b"] .null).1
      (.num 7) rfl,
   (C10_safe_get_amended (.obj []) ["a"] .null).2 (fun _fs h => Json.noConfusion h) rfl⟩
